import Mathlib

/-!
Shallow embedding of `src/main.py` (HoYoLAB Embed Fixer), a link-unfurling
proxy.  Pure string processing (`extract_post_id`, `html.escape`, the
tag-stripping regex, `generate_embed_html`) is translated into executable
Lean functions on `List Char` / `String`.  The network-facing handlers are
modelled as functions over an `Upstream` oracle record; each handler also
returns the list of upstream calls it performed, so that claims about which
calls happen (and in which situations) can be stated.  A Python `KeyError`
escaping a function is modelled by `Option` (`none` = uncaught exception).
-/

namespace FastPy

/-! ### `html.escape` (CPython, `quote=True`)

CPython replaces, in order: `&`→`&amp;`, `<`→`&lt;`, `>`→`&gt;`,
`"`→`&quot;`, `'`→`&#x27;`.  Since no replacement string contains a
character that a later replacement rewrites at the point it was produced,
this equals a single character-by-character map. -/

def escapeChar (c : Char) : List Char :=
  if c = '&' then "&amp;".data
  else if c = '<' then "&lt;".data
  else if c = '>' then "&gt;".data
  else if c = '"' then "&quot;".data
  else if c = '\'' then "&#x27;".data
  else [c]

def escapeList : List Char → List Char
  | [] => []
  | c :: cs => escapeChar c ++ escapeList cs

def htmlEscape (s : String) : String :=
  String.mk (escapeList s.data)

/-! ### `re.sub(r"<[^>]*>", "", s)`

The pattern matches a `<`, then the maximal run of non-`>` characters,
then a `>`: i.e. a match starts at each `<` that is followed (anywhere
later) by a `>`, and spans up to the first such `>`.  A `<` with no later
`>` matches nothing and is kept.  `re.sub` removes the leftmost match and
continues after it. -/

def dropThroughGt : List Char → Option (List Char)
  | [] => none
  | c :: rest => if c = '>' then some rest else dropThroughGt rest

/-- One removal step per unit of fuel; fuel `l.length` always suffices
because each step strictly shortens the list. -/
def stripTagsFuel : Nat → List Char → List Char
  | 0, _ => []
  | _ + 1, [] => []
  | fuel + 1, c :: rest =>
    if c = '<' then
      match dropThroughGt rest with
      | some rest' => stripTagsFuel fuel rest'
      | none => c :: stripTagsFuel fuel rest
    else
      c :: stripTagsFuel fuel rest

def stripTagsL (l : List Char) : List Char :=
  stripTagsFuel l.length l

def stripTags (s : String) : String :=
  String.mk (stripTagsL s.data)

/-! ### `extract_post_id`

Each of the four regex patterns is a literal string followed by `(\d+)`;
`re.search` finds the leftmost position where the literal matches and at
least one digit follows, and the greedy `\d+` captures the maximal digit
run there. -/

structure PostReference where
  id : String
  is_pre_post : Bool
deriving DecidableEq, Repr

/-- If `s` starts with the literal `pat`, return the remainder after it. -/
def matchLiteralAt : List Char → List Char → Option (List Char)
  | [], s => some s
  | _ :: _, [] => none
  | p :: ps, c :: cs => if c = p then matchLiteralAt ps cs else none

/-- Try the pattern `lit(\d+)` anchored at the start of `s`:
the literal must match and at least one digit must follow; the capture is
the maximal digit run. -/
def tryAt (lit : List Char) (s : List Char) : Option String :=
  match matchLiteralAt lit s with
  | none => none
  | some rest =>
    let ds := rest.takeWhile Char.isDigit
    if ds.isEmpty then none else some (String.mk ds)

/-- `re.search` of `lit(\d+)` over `s`: leftmost position wins. -/
def searchPat (lit : List Char) : List Char → Option String
  | [] => tryAt lit []
  | c :: cs =>
    match tryAt lit (c :: cs) with
    | some r => some r
    | none => searchPat lit cs

def pat1 : List Char := "hoyolab.com/article_pre/".data
def pat2 : List Char := "hoyolab.com/article/".data
def pat3 : List Char := "hoyolab.com/#/article/".data
def pat4 : List Char := "m.hoyolab.com/#/article/".data

def extract_post_id (url : String) : Option PostReference :=
  match searchPat pat1 url.data with
  | some i => some ⟨i, true⟩
  | none =>
    match searchPat pat2 url.data with
    | some i => some ⟨i, false⟩
    | none =>
      match searchPat pat3 url.data with
      | some i => some ⟨i, false⟩
      | none =>
        match searchPat pat4 url.data with
        | some i => some ⟨i, false⟩
        | none => none

/-! ### `generate_embed_html`

The upstream JSON post payload is modelled structurally: each dict key the
code reads becomes an `Option` field (`none` = key absent).  `post["post"]`,
`post["user"]`, `images[0]["url"]`, `i["url"]` and `u['avatar_url']` are
direct subscripts in the Python source and raise `KeyError` when the key is
missing, so the renderer returns `Option String` with `none` modelling an
uncaught exception; `.get` accesses with defaults become `Option.getD`. -/

structure ImageItem where
  url : Option String
deriving DecidableEq, Repr

structure PostInner where
  subject : Option String
  desc : Option String
  has_cover : Option Bool
  view_type : Option Nat
deriving DecidableEq, Repr

structure PostUser where
  nickname : Option String
  avatar_url : Option String
deriving DecidableEq, Repr

structure PostVideo where
  cover : Option String
deriving DecidableEq, Repr

structure PostGame where
  color : Option String
deriving DecidableEq, Repr

structure PostRecord where
  post : Option PostInner
  user : Option PostUser
  video : Option PostVideo
  game : Option PostGame
  cover_list : Option (List ImageItem)
  image_list : Option (List ImageItem)
deriving DecidableEq, Repr

/-- `'<meta property="og:image" content="' + main_image + '">' if main_image else ''` -/
def og_image_tag (main_image : String) : String :=
  if main_image = "" then ""
  else "<meta property=\"og:image\" content=\"" ++ main_image ++ "\">"

/-- `'<meta name="twitter:image" content="' + main_image + '">' if main_image else ''` -/
def twitter_image_tag (main_image : String) : String :=
  if main_image = "" then ""
  else "<meta name=\"twitter:image\" content=\"" ++ main_image ++ "\">"

/-- `[f'<img src="{i["url"]}">' for i in l]`; `none` when some `i` lacks `"url"`. -/
def imgTags : List ImageItem → Option (List String)
  | [] => some []
  | i :: rest =>
    match i.url with
    | none => none
    | some u =>
      match imgTags rest with
      | none => none
      | some ts => some (("<img src=\"" ++ u ++ "\">") :: ts)

/-- `"".join([f'<img src="{i["url"]}">' for i in images[:4]])` -/
def gallery_imgs (images : List ImageItem) : Option String :=
  (imgTags (images.take 4)).map String.join

/-- The f-string template returned by `generate_embed_html`, with each
interpolation slot a parameter, in source order of the slots. -/
def htmlDoc (post_url subject clean_desc main_image theme_color nickname avatar
    gallery_html : String) : String :=
  "<!DOCTYPE html>\n<html lang=\"en\">\n<head>\n<meta charset=\"UTF-8\">\n" ++
  "<meta name=\"viewport\" content=\"width=device-width,initial-scale=1\">\n" ++
  "<meta property=\"og:type\" content=\"article\">\n" ++
  "<meta property=\"og:url\" content=\"" ++ post_url ++ "\">\n" ++
  "<meta property=\"og:title\" content=\"" ++ subject ++ "\">\n" ++
  "<meta property=\"og:description\" content=\"" ++ clean_desc ++ "\">\n" ++
  og_image_tag main_image ++ "\n" ++
  "<meta property=\"og:site_name\" content=\"HoYoLAB\">\n" ++
  "<meta name=\"twitter:card\" content=\"summary_large_image\">\n" ++
  "<meta name=\"twitter:title\" content=\"" ++ subject ++ "\">\n" ++
  "<meta name=\"twitter:description\" content=\"" ++ clean_desc ++ "\">\n" ++
  twitter_image_tag main_image ++ "\n" ++
  "<meta name=\"theme-color\" content=\"" ++ theme_color ++ "\">\n" ++
  "<meta name=\"author\" content=\"" ++ nickname ++ "\">\n" ++
  "<title>" ++ subject ++ " - HoYoLAB</title>\n" ++
  "<style>\n" ++
  "  body \x7b font-family: -apple-system, BlinkMacSystemFont, \x27Segoe UI\x27, Roboto; max-width: 800px; margin: 40px auto; padding: 20px; background: #f5f5f5; \x7d\n" ++
  "  .container \x7b background: white; border-radius: 12px; padding: 30px; box-shadow: 0 2px 8px rgba(0,0,0,.1); \x7d\n" ++
  "  .author \x7b display:flex; align-items:center; gap:12px; margin-bottom:20px; \x7d\n" ++
  "  .author img \x7b width:48px; height:48px; border-radius:50%; \x7d\n" ++
  "  h1 \x7b margin:0 0 16px 0; \x7d\n" ++
  "  .image-gallery \x7b display:grid; grid-template-columns:repeat(auto-fit,minmax(250px,1fr)); gap:12px; margin-top:20px; \x7d\n" ++
  "  .image-gallery img \x7b width:100%; border-radius:8px; \x7d\n" ++
  "  .redirect-btn \x7b display:inline-block; background:" ++ theme_color ++ "; color:white; padding:12px 24px; border-radius:8px; margin-top:20px; text-decoration:none; font-weight:600; \x7d\n" ++
  "</style>\n" ++
  "<script>setTimeout(() => \x7b window.location.href=\"" ++ post_url ++ "\" \x7d, 3000);</script>\n" ++
  "</head>\n<body>\n<div class=\"container\">\n" ++
  "  <div class=\"author\"><img src=\"" ++ avatar ++ "\"><div>" ++ nickname ++ "</div></div>\n" ++
  "  <h1>" ++ subject ++ "</h1>\n" ++
  "  <div>" ++ clean_desc ++ "</div>\n" ++
  "  " ++ gallery_html ++ "\n" ++
  "  <a class=\"redirect-btn\" href=\"" ++ post_url ++ "\">View on HoYoLAB</a>\n" ++
  "</div>\n</body>\n</html>"

/-- `images[0]["url"] if images else ""` (`none` = `KeyError`). -/
def first_image_url (images : Option (List ImageItem)) : Option String :=
  match images with
  | some (i :: _) => i.url
  | some [] => some ""
  | none => some ""

/-- The `gallery_html` variable: empty unless `images` is truthy
(`none` = `KeyError` on a missing `"url"` among the first 4). -/
def gallery_html_of (images : Option (List ImageItem)) : Option String :=
  match images with
  | some (i :: rest) =>
    (gallery_imgs (i :: rest)).map
      (fun imgs => "<div class=\"image-gallery\">" ++ imgs ++ "</div>")
  | _ => some ""

/-- The `main_image` variable: the first image's URL, overridden by the
video cover when `view_type == 5` and a video object is present. -/
def main_image_of (p : PostInner) (video : Option PostVideo)
    (main_image0 : String) : String :=
  if p.view_type = some 5 then
    match video with
    | some v => v.cover.getD main_image0
    | none => main_image0
  else main_image0

/-- `game.get("color", "#25A0E7")` with `game = post.get("game", {})`. -/
def theme_color_of (game : Option PostGame) : String :=
  (game.bind PostGame.color).getD "#25A0E7"

def generate_embed_html (post : PostRecord) (post_url : String) : Option String :=
  match post.post with
  | none => none
  | some p =>
    match post.user with
    | none => none
    | some u =>
      let images := if p.has_cover = some true then post.cover_list else post.image_list
      match first_image_url images with
      | none => none
      | some main_image0 =>
        match gallery_html_of images with
        | none => none
        | some gallery_html =>
          match u.avatar_url with
          | none => none
          | some avatar =>
            some (htmlDoc post_url (htmlEscape (p.subject.getD ""))
              (htmlEscape (stripTags (p.desc.getD "")))
              (main_image_of p post.video main_image0)
              (theme_color_of post.game)
              (htmlEscape (u.nickname.getD ""))
              avatar gallery_html)

/-! ### Request handlers

The four network operations (`follow_redirects`, `resolve_short_query`,
`get_actual_post_id`, `fetch_post_data`) are oracles supplied by an
`Upstream` record; each handler returns its response together with the
list of upstream calls it performed, in order.  A handler result of
`none` models an exception escaping the handler (only possible via the
renderer's `KeyError`s). -/

inductive UpstreamCall where
  | followRedirectsCall (url : String)
  | resolveShortQueryCall (q : String)
  | getActualPostIdCall (id : String)
  | fetchPostDataCall (id lang : String)
deriving DecidableEq, Repr

def isFetchCall : UpstreamCall → Bool
  | UpstreamCall.fetchPostDataCall _ _ => true
  | _ => false

structure Upstream where
  follow_redirects : String → String
  resolve_short_query : String → Option String
  get_actual_post_id : String → Option String
  fetch_post_data : String → String → Option PostRecord

inductive HttpResponse where
  | htmlResp (body : String)
  | redirectResp (url : String)
  | jsonError (msg : String) (status : Nat)
deriving DecidableEq, Repr

/-- `GET /post` (`handle_post`). -/
def handle_post (g : Upstream) (post_id : String) (lang : String) :
    Option HttpResponse × List UpstreamCall :=
  let step1 :=
    if post_id.length > 15 then
      match g.get_actual_post_id post_id with
      | some resolved => (resolved, [UpstreamCall.getActualPostIdCall post_id])
      | none => (post_id, [UpstreamCall.getActualPostIdCall post_id])
    else (post_id, ([] : List UpstreamCall))
  let actual_id := step1.1
  let calls1 := step1.2 ++ [UpstreamCall.fetchPostDataCall actual_id lang]
  match g.fetch_post_data actual_id lang with
  | none => (some (HttpResponse.jsonError "Failed to fetch post" 500), calls1)
  | some post_data =>
    match generate_embed_html post_data ("https://www.hoyolab.com/article/" ++ actual_id) with
    | some doc => (some (HttpResponse.htmlResp doc), calls1)
    | none => (none, calls1)

/-- `GET /sh` (`handle_short_link`). -/
def handle_short_link (g : Upstream) (redirect : String) (lang : String) :
    Option HttpResponse × List UpstreamCall :=
  if redirect = "" then
    (some (HttpResponse.jsonError "Missing redirect param" 400), [])
  else
    let final_url := g.follow_redirects ("https://hoyo.link/" ++ redirect)
    let calls1 := [UpstreamCall.followRedirectsCall ("https://hoyo.link/" ++ redirect)]
    match extract_post_id final_url with
    | none => (some (HttpResponse.redirectResp final_url), calls1)
    | some extracted =>
      let step :=
        if extracted.is_pre_post then
          match g.get_actual_post_id extracted.id with
          | none => (none, calls1 ++ [UpstreamCall.getActualPostIdCall extracted.id])
          | some actual => (some actual, calls1 ++ [UpstreamCall.getActualPostIdCall extracted.id])
        else (some extracted.id, calls1)
      match step with
      | (none, calls2) =>
        (some (HttpResponse.jsonError "Failed to resolve pre-post ID" 500), calls2)
      | (some post_id, calls2) =>
        let calls3 := calls2 ++ [UpstreamCall.fetchPostDataCall post_id lang]
        match g.fetch_post_data post_id lang with
        | none => (some (HttpResponse.jsonError "Failed to fetch post" 500), calls3)
        | some post_data =>
          match generate_embed_html post_data ("https://www.hoyolab.com/article/" ++ post_id) with
          | some doc => (some (HttpResponse.htmlResp doc), calls3)
          | none => (none, calls3)

/-- `GET /q` (`handle_query_link`). -/
def handle_query_link (g : Upstream) (q : String) (lang : String) :
    Option HttpResponse × List UpstreamCall :=
  if q = "" then
    (some (HttpResponse.jsonError "Missing q param" 400), [])
  else
    match g.resolve_short_query q with
    | none =>
      (some (HttpResponse.jsonError "Failed to resolve short link" 500),
       [UpstreamCall.resolveShortQueryCall q])
    | some final_url =>
      let calls1 := [UpstreamCall.resolveShortQueryCall q]
      match extract_post_id final_url with
      | none => (some (HttpResponse.redirectResp final_url), calls1)
      | some extracted =>
        let step :=
          if extracted.is_pre_post then
            match g.get_actual_post_id extracted.id with
            | none => (none, calls1 ++ [UpstreamCall.getActualPostIdCall extracted.id])
            | some actual => (some actual, calls1 ++ [UpstreamCall.getActualPostIdCall extracted.id])
          else (some extracted.id, calls1)
        match step with
        | (none, calls2) =>
          (some (HttpResponse.jsonError "Failed to resolve pre-post ID" 500), calls2)
        | (some post_id, calls2) =>
          let calls3 := calls2 ++ [UpstreamCall.fetchPostDataCall post_id lang]
          match g.fetch_post_data post_id lang with
          | none => (some (HttpResponse.jsonError "Failed to fetch post" 500), calls3)
          | some post_data =>
            match generate_embed_html post_data ("https://www.hoyolab.com/article/" ++ post_id) with
            | some doc => (some (HttpResponse.htmlResp doc), calls3)
            | none => (none, calls3)

/-- Substring occurrence test (`pat` occurs somewhere in `s`). -/
def startsWithL : List Char → List Char → Bool
  | [], _ => true
  | _ :: _, [] => false
  | p :: ps, c :: cs => c = p && startsWithL ps cs

def occursInL (pat : List Char) : List Char → Bool
  | [] => pat.isEmpty
  | c :: cs => startsWithL pat (c :: cs) || occursInL pat cs

def occursIn (pat s : String) : Bool :=
  occursInL pat.data s.data

/-! ### Lemmas about the pattern matcher -/

theorem matchLiteralAt_append {y : List Char} :
    ∀ (x s r : List Char), matchLiteralAt (x ++ y) s = some r →
      ∃ m, matchLiteralAt x s = some m ∧ matchLiteralAt y m = some r := by
  intro x
  induction x with
  | nil => intro s r h; exact ⟨s, rfl, h⟩
  | cons p ps ih =>
    intro s r h
    cases s with
    | nil => simp [matchLiteralAt] at h
    | cons c cs =>
      simp only [List.cons_append, matchLiteralAt] at h ⊢
      by_cases hc : c = p
      · rw [if_pos hc] at h ⊢
        exact ih cs r h
      · rw [if_neg hc] at h
        exact absurd h (by simp)

theorem matchLiteralAt_pre :
    ∀ (x s m : List Char), matchLiteralAt x s = some m → ∃ pre, s = pre ++ m := by
  intro x
  induction x with
  | nil =>
    intro s m h
    simp only [matchLiteralAt, Option.some.injEq] at h
    exact ⟨[], by simp [h]⟩
  | cons p ps ih =>
    intro s m h
    cases s with
    | nil => simp [matchLiteralAt] at h
    | cons c cs =>
      simp only [matchLiteralAt] at h
      split at h
      · obtain ⟨pre, hpre⟩ := ih cs m h
        exact ⟨c :: pre, by simp [hpre]⟩
      · exact absurd h (by simp)

theorem searchPat_some {lit : List Char} :
    ∀ (s : List Char) (i : String), searchPat lit s = some i →
      ∃ pre t, s = pre ++ t ∧ tryAt lit t = some i := by
  intro s
  induction s with
  | nil => intro i h; exact ⟨[], [], by simp, h⟩
  | cons c cs ih =>
    intro i h
    simp only [searchPat] at h
    split at h
    · exact ⟨[], c :: cs, by simp, by rw [← h]; assumption⟩
    · obtain ⟨pre, t, hs, ht⟩ := ih i h
      exact ⟨c :: pre, t, by simp [hs], ht⟩

theorem searchPat_isSome_of_tryAt {lit : List Char} :
    ∀ (pre t : List Char) (i : String), tryAt lit t = some i →
      (searchPat lit (pre ++ t)).isSome = true := by
  intro pre
  induction pre with
  | nil =>
    intro t i h
    cases t with
    | nil => simp [searchPat, h]
    | cons c cs => simp [searchPat, h]
  | cons p ps ih =>
    intro t i h
    simp only [List.cons_append, searchPat]
    split
    · simp
    · exact ih t i h

theorem tryAt_digits {lit s : List Char} {i : String} (h : tryAt lit s = some i) :
    i.data ≠ [] ∧ i.data.all Char.isDigit = true := by
  simp only [tryAt] at h
  split at h
  · exact absurd h (by simp)
  · split at h
    · exact absurd h (by simp)
    · rename_i hd
      cases h
      refine ⟨?_, List.all_eq_true.mpr fun c hc => List.mem_takeWhile_imp hc⟩
      intro hnil
      exact hd (by simp only [List.isEmpty_iff]; exact hnil)

theorem searchPat_digits {lit : List Char} {s : List Char} {i : String}
    (h : searchPat lit s = some i) :
    i.data ≠ [] ∧ i.data.all Char.isDigit = true := by
  obtain ⟨pre, t, _, ht⟩ := searchPat_some s i h
  exact tryAt_digits ht

theorem data_ne_nil_ne_empty {i : String} (h : i.data ≠ []) : i ≠ "" :=
  fun he => h (he ▸ rfl)

/-! ### Lemmas about the renderer -/

/-- Whenever rendering succeeds, the emitted document is the template with
the subject, description and nickname slots filled with the escaped (and,
for the description, first tag-stripped) field values. -/
theorem generate_shape {post : PostRecord} {url : String} {p : PostInner}
    {u : PostUser} {doc : String}
    (hp : post.post = some p) (hu : post.user = some u)
    (hgen : generate_embed_html post url = some doc) :
    ∃ mi th av gal,
      doc = htmlDoc url (htmlEscape (p.subject.getD ""))
          (htmlEscape (stripTags (p.desc.getD "")))
          mi th (htmlEscape (u.nickname.getD "")) av gal := by
  obtain ⟨pp, pu, pv, pg, pc, pi⟩ := post
  replace hp : pp = some p := hp
  replace hu : pu = some u := hu
  subst hp
  subst hu
  unfold generate_embed_html at hgen
  conv at hgen => lhs; whnf
  repeat' split at hgen
  all_goals (try contradiction)
  exact ⟨_, _, _, _, (Option.some.inj hgen).symm⟩

theorem escapeChar_no_special (c : Char) :
    '<' ∉ escapeChar c ∧ '>' ∉ escapeChar c ∧ '"' ∉ escapeChar c := by
  unfold escapeChar
  split_ifs with h1 h2 h3 h4 h5
  · exact ⟨by decide, by decide, by decide⟩
  · exact ⟨by decide, by decide, by decide⟩
  · exact ⟨by decide, by decide, by decide⟩
  · exact ⟨by decide, by decide, by decide⟩
  · exact ⟨by decide, by decide, by decide⟩
  · refine ⟨?_, ?_, ?_⟩ <;> simp only [List.mem_singleton] <;> intro he
    · exact h2 he.symm
    · exact h3 he.symm
    · exact h4 he.symm

theorem escapeList_no_special (l : List Char) :
    '<' ∉ escapeList l ∧ '>' ∉ escapeList l ∧ '"' ∉ escapeList l := by
  induction l with
  | nil => exact ⟨by simp [escapeList], by simp [escapeList], by simp [escapeList]⟩
  | cons c cs ih =>
    obtain ⟨h1, h2, h3⟩ := escapeChar_no_special c
    obtain ⟨i1, i2, i3⟩ := ih
    refine ⟨?_, ?_, ?_⟩ <;> simp only [escapeList, List.mem_append] <;> rintro (h | h)
    · exact h1 h
    · exact i1 h
    · exact h2 h
    · exact i2 h
    · exact h3 h
    · exact i3 h

theorem imgTags_length :
    ∀ (l : List ImageItem) (ts : List String), imgTags l = some ts →
      ts.length = l.length := by
  intro l
  induction l with
  | nil =>
    intro ts h
    cases h
    rfl
  | cons i rest ih =>
    intro ts h
    simp only [imgTags] at h
    split at h
    · exact absurd h (by simp)
    · split at h
      · exact absurd h (by simp)
      · rename_i ts' hts
        cases h
        simp [ih ts' hts]

/-! ### Claim theorems -/

/-- C3: `extract_post_id` tries the four URL-shape recognizers in the fixed
order (article_pre, article, #/article, mobile #/article), by substring
search, and returns the first match's captured digit run with the matching
pre-post flag; it returns `none` when no recognizer applies.  In particular
the three example URLs of the spec give `("12345", false)`, `("987", true)`
and `("55", false)`. -/
theorem extract_tries_patterns_in_order :
    (∀ url i, searchPat pat1 url.data = some i →
        extract_post_id url = some ⟨i, true⟩) ∧
    (∀ url i, searchPat pat1 url.data = none → searchPat pat2 url.data = some i →
        extract_post_id url = some ⟨i, false⟩) ∧
    (∀ url i, searchPat pat1 url.data = none → searchPat pat2 url.data = none →
        searchPat pat3 url.data = some i → extract_post_id url = some ⟨i, false⟩) ∧
    (∀ url i, searchPat pat1 url.data = none → searchPat pat2 url.data = none →
        searchPat pat3 url.data = none → searchPat pat4 url.data = some i →
        extract_post_id url = some ⟨i, false⟩) ∧
    (∀ url, searchPat pat1 url.data = none → searchPat pat2 url.data = none →
        searchPat pat3 url.data = none → searchPat pat4 url.data = none →
        extract_post_id url = none) ∧
    extract_post_id "https://www.hoyolab.com/article/12345" = some ⟨"12345", false⟩ ∧
    extract_post_id "https://www.hoyolab.com/article_pre/987" = some ⟨"987", true⟩ ∧
    extract_post_id "https://m.hoyolab.com/#/article/55" = some ⟨"55", false⟩ := by
  refine ⟨?_, ?_, ?_, ?_, ?_, by decide, by decide, by decide⟩
  · intro url i h1
    simp [extract_post_id, h1]
  · intro url i h1 h2
    simp [extract_post_id, h1, h2]
  · intro url i h1 h2 h3
    simp [extract_post_id, h1, h2, h3]
  · intro url i h1 h2 h3 h4
    simp [extract_post_id, h1, h2, h3, h4]
  · intro url h1 h2 h3 h4
    simp [extract_post_id, h1, h2, h3, h4]

/-- C3 witness: the second recognizer applied at a concrete URL on which the
first one fails. -/
theorem extract_tries_patterns_in_order_witness :
    extract_post_id "x hoyolab.com/article/42" = some ⟨"42", false⟩ :=
  extract_tries_patterns_in_order.2.1 "x hoyolab.com/article/42" "42"
    (by decide) (by decide)

/-- C4 counterexample: the four URL-shape patterns are NOT mutually
exclusive — the desktop-fragment pattern (3) and the mobile pattern (4)
both match `https://m.hoyolab.com/#/article/55`. -/
theorem patterns_not_mutually_exclusive :
    (searchPat pat3 "https://m.hoyolab.com/#/article/55".data).isSome = true ∧
    (searchPat pat4 "https://m.hoyolab.com/#/article/55".data).isSome = true := by
  decide

/-- C4 (amended): the patterns are not mutually exclusive — every string
matched by the mobile pattern (4) is also matched by the desktop-fragment
pattern (3), since pattern 4's literal extends pattern 3's — but the
extractor still uses only one match, the first in the fixed priority
order, as on the doubly-matching URL `m.hoyolab.com/#/article/777`. -/
theorem mobile_pattern_subsumed :
    (∀ s i, searchPat pat4 s = some i → (searchPat pat3 s).isSome = true) ∧
    extract_post_id "m.hoyolab.com/#/article/777" = some ⟨"777", false⟩ := by
  constructor
  · intro s i h
    obtain ⟨pre, t, rfl, ht⟩ := searchPat_some _ _ h
    have hsplit : pat4 = "m.".data ++ pat3 := by decide
    simp only [tryAt] at ht
    split at ht
    · exact absurd ht (by simp)
    · rename_i rest hm
      rw [hsplit] at hm
      obtain ⟨m, hx, hy⟩ := matchLiteralAt_append _ _ _ hm
      have ht3 : tryAt pat3 m = some i := by
        simp only [tryAt, hy]
        exact ht
      obtain ⟨pre2, rfl⟩ := matchLiteralAt_pre _ _ _ hx
      have hres := searchPat_isSome_of_tryAt (pre ++ pre2) m i ht3
      simpa [List.append_assoc] using hres
  · decide

/-- C4 amended witness: the subsumption applied at a concrete mobile URL. -/
theorem mobile_pattern_subsumed_witness :
    (searchPat pat3 "m.hoyolab.com/#/article/777".data).isSome = true :=
  mobile_pattern_subsumed.1 "m.hoyolab.com/#/article/777".data "777" (by decide)

/-- C10: whenever `extract_post_id` returns a `PostReference`, its `id` is a
nonempty string consisting only of decimal digits. -/
theorem extract_id_digits (url : String) (r : PostReference)
    (h : extract_post_id url = some r) :
    r.id ≠ "" ∧ r.id.data.all Char.isDigit = true := by
  simp only [extract_post_id] at h
  split at h
  · rename_i i hi
    cases h
    obtain ⟨hne, hall⟩ := searchPat_digits hi
    exact ⟨data_ne_nil_ne_empty hne, hall⟩
  · rename_i h1
    split at h
    · rename_i i hi
      cases h
      obtain ⟨hne, hall⟩ := searchPat_digits hi
      exact ⟨data_ne_nil_ne_empty hne, hall⟩
    · rename_i h2
      split at h
      · rename_i i hi
        cases h
        obtain ⟨hne, hall⟩ := searchPat_digits hi
        exact ⟨data_ne_nil_ne_empty hne, hall⟩
      · rename_i h3
        split at h
        · rename_i i hi
          cases h
          obtain ⟨hne, hall⟩ := searchPat_digits hi
          exact ⟨data_ne_nil_ne_empty hne, hall⟩
        · exact absurd h (by simp)

/-- C10 witness: the digit invariant at a concrete URL. -/
theorem extract_id_digits_witness :
    ("12345" : String) ≠ "" ∧ ("12345" : String).data.all Char.isDigit = true :=
  extract_id_digits "https://www.hoyolab.com/article/12345" ⟨"12345", false⟩
    (by decide)

/-- C6: in `/post`, an ID longer than 15 characters is first sent to the
pre-post translation; on success the translated ID is used for the fetch,
on failure the fetch still happens with the original ID (no abort at the
translation step); an ID of length at most 15 triggers no translation
call. -/
theorem handle_post_length_policy :
    (∀ (g : Upstream) (post_id lang t : String), post_id.length > 15 →
        g.get_actual_post_id post_id = some t →
        (handle_post g post_id lang).2 =
          [UpstreamCall.getActualPostIdCall post_id,
           UpstreamCall.fetchPostDataCall t lang]) ∧
    (∀ (g : Upstream) (post_id lang : String), post_id.length > 15 →
        g.get_actual_post_id post_id = none →
        (handle_post g post_id lang).2 =
          [UpstreamCall.getActualPostIdCall post_id,
           UpstreamCall.fetchPostDataCall post_id lang]) ∧
    (∀ (g : Upstream) (post_id lang : String), ¬ post_id.length > 15 →
        (handle_post g post_id lang).2 =
          [UpstreamCall.fetchPostDataCall post_id lang]) := by
  refine ⟨?_, ?_, ?_⟩
  · intro g post_id lang t hlen htr
    cases hf : g.fetch_post_data t lang with
    | none => simp [handle_post, hlen, htr, hf]
    | some pd =>
      cases hg : generate_embed_html pd ("https://www.hoyolab.com/article/" ++ t) <;>
        simp [handle_post, hlen, htr, hf, hg]
  · intro g post_id lang hlen htr
    cases hf : g.fetch_post_data post_id lang with
    | none => simp [handle_post, hlen, htr, hf]
    | some pd =>
      cases hg : generate_embed_html pd ("https://www.hoyolab.com/article/" ++ post_id) <;>
        simp [handle_post, hlen, htr, hf, hg]
  · intro g post_id lang hlen
    cases hf : g.fetch_post_data post_id lang with
    | none => simp [handle_post, hlen, hf]
    | some pd =>
      cases hg : generate_embed_html pd ("https://www.hoyolab.com/article/" ++ post_id) <;>
        simp [handle_post, hlen, hf, hg]

/-- C6 witness: a 16-character ID with failing translation still reaches
the fetch with the original ID. -/
theorem handle_post_length_policy_witness :
    (handle_post ⟨fun u => u, fun _ => none, fun _ => none, fun _ _ => none⟩
        "1234567890123456" "en-us").2 =
      [UpstreamCall.getActualPostIdCall "1234567890123456",
       UpstreamCall.fetchPostDataCall "1234567890123456" "en-us"] :=
  handle_post_length_policy.2.1
    ⟨fun u => u, fun _ => none, fun _ => none, fun _ _ => none⟩
    "1234567890123456" "en-us" (by decide) rfl

/-- C5: in `/sh` and `/q`, when the resolved URL is classified as a
pre-post reference and the ID-translation call fails, the handler answers
with the 500 "Failed to resolve pre-post ID" error and never calls the
post fetch in that request. -/
theorem pre_post_translation_hard_failure :
    (∀ (g : Upstream) (redirect lang id : String),
        redirect ≠ "" →
        extract_post_id (g.follow_redirects ("https://hoyo.link/" ++ redirect)) =
          some ⟨id, true⟩ →
        g.get_actual_post_id id = none →
        (handle_short_link g redirect lang).1 =
            some (HttpResponse.jsonError "Failed to resolve pre-post ID" 500) ∧
          (handle_short_link g redirect lang).2.all (fun c => !isFetchCall c) = true) ∧
    (∀ (g : Upstream) (q lang final_url id : String),
        q ≠ "" →
        g.resolve_short_query q = some final_url →
        extract_post_id final_url = some ⟨id, true⟩ →
        g.get_actual_post_id id = none →
        (handle_query_link g q lang).1 =
            some (HttpResponse.jsonError "Failed to resolve pre-post ID" 500) ∧
          (handle_query_link g q lang).2.all (fun c => !isFetchCall c) = true) := by
  constructor
  · intro g redirect lang id hne hx htr
    constructor <;> simp [handle_short_link, hne, hx, htr, isFetchCall]
  · intro g q lang final_url id hne hq hx htr
    constructor <;> simp [handle_query_link, hne, hq, hx, htr, isFetchCall]

/-- C5 witness: a short link resolving to a pre-post URL whose translation
fails yields the 500 error and a fetch-free call trace. -/
theorem pre_post_translation_hard_failure_witness :
    (handle_short_link
          ⟨fun _ => "hoyolab.com/article_pre/9", fun _ => none, fun _ => none,
           fun _ _ => none⟩ "a" "en-us").1 =
        some (HttpResponse.jsonError "Failed to resolve pre-post ID" 500) ∧
      (handle_short_link
          ⟨fun _ => "hoyolab.com/article_pre/9", fun _ => none, fun _ => none,
           fun _ _ => none⟩ "a" "en-us").2.all (fun c => !isFetchCall c) = true :=
  pre_post_translation_hard_failure.1
    ⟨fun _ => "hoyolab.com/article_pre/9", fun _ => none, fun _ => none,
     fun _ _ => none⟩ "a" "en-us" "9" (by decide) (by decide) rfl

/-- C7: in `/sh` and `/q`, when the resolved URL matches none of the four
URL shapes, the handler returns a redirect response to that URL and the
call trace holds exactly the one resolution call — no fetch and no
translation happen after the classification. -/
theorem external_url_no_further_calls :
    (∀ (g : Upstream) (redirect lang : String),
        redirect ≠ "" →
        extract_post_id (g.follow_redirects ("https://hoyo.link/" ++ redirect)) = none →
        handle_short_link g redirect lang =
          (some (HttpResponse.redirectResp
              (g.follow_redirects ("https://hoyo.link/" ++ redirect))),
           [UpstreamCall.followRedirectsCall ("https://hoyo.link/" ++ redirect)])) ∧
    (∀ (g : Upstream) (q lang final_url : String),
        q ≠ "" →
        g.resolve_short_query q = some final_url →
        extract_post_id final_url = none →
        handle_query_link g q lang =
          (some (HttpResponse.redirectResp final_url),
           [UpstreamCall.resolveShortQueryCall q])) := by
  constructor
  · intro g redirect lang hne hx
    simp [handle_short_link, hne, hx]
  · intro g q lang final_url hne hq hx
    simp [handle_query_link, hne, hq, hx]

/-- C7 witness: a short link resolving to a non-HoYoLAB URL produces a
redirect after the single redirect-following call. -/
theorem external_url_no_further_calls_witness :
    handle_short_link
        ⟨fun _ => "https://example.com/x", fun _ => none, fun _ => none,
         fun _ _ => none⟩ "a" "en-us" =
      (some (HttpResponse.redirectResp "https://example.com/x"),
       [UpstreamCall.followRedirectsCall ("https://hoyo.link/" ++ "a")]) :=
  external_url_no_further_calls.1
    ⟨fun _ => "https://example.com/x", fun _ => none, fun _ => none,
     fun _ _ => none⟩ "a" "en-us" (by decide) (by decide)

/-- C1 counterexample: both halves of the claim fail on the code — (a) not
every interpolated value is HTML-escaped: a user-authored avatar URL is
interpolated verbatim, so a hostile `user.avatar_url` places a raw
executable `<script>` tag in the emitted document; and (b) a `post.desc`
of `<script>alert(1)</script>` does NOT yield the literal escaped text in
the document, because the tags are stripped away before escaping. -/
theorem unescaped_avatar_breaks_out :
    ((generate_embed_html
        ⟨some ⟨none, none, none, none⟩,
         some ⟨none, some "x\"><script>alert(1)</script>"⟩, none, none, none,
         none⟩ "U").map
      (fun d => occursIn "<script>alert(1)</script>" d) = some true) ∧
    ((generate_embed_html
        ⟨some ⟨none, some "<script>alert(1)</script>", none, none⟩,
         some ⟨none, some ""⟩, none, none, none, none⟩ "U").map
      (fun d => occursIn "&lt;script&gt;alert(1)&lt;/script&gt;" d) =
      some false) := by
  constructor
  · set_option maxRecDepth 8000 in decide
  · set_option maxRecDepth 8000 in decide

/-- C1 (amended): only the subject, description and nickname slots of the
rendered document are HTML-escaped (escaped text never contains a raw
`<`, `>` or `"`, so those values cannot break out of their HTML context);
a `post.desc` of `<script>alert(1)</script>` has its tags stripped before
escaping, so the document carries the residual text `alert(1)` and
neither an executable script tag from the description nor the escaped
literal; the avatar URL, image URLs, canonical URL and color are
interpolated without escaping. -/
theorem user_content_escaping :
    (∀ (post : PostRecord) (url : String) (p : PostInner) (u : PostUser)
        (doc : String),
        post.post = some p → post.user = some u →
        generate_embed_html post url = some doc →
        ∃ mi th av gal,
          doc = htmlDoc url (htmlEscape (p.subject.getD ""))
              (htmlEscape (stripTags (p.desc.getD "")))
              mi th (htmlEscape (u.nickname.getD "")) av gal) ∧
    (∀ s : String, '<' ∉ (htmlEscape s).data ∧ '>' ∉ (htmlEscape s).data ∧
        '"' ∉ (htmlEscape s).data) ∧
    ((generate_embed_html
        ⟨some ⟨none, some "<script>alert(1)</script>", none, none⟩,
         some ⟨none, some ""⟩, none, none, none, none⟩ "U").map
      (fun d => occursIn "alert(1)" d &&
        !(occursIn "<script>alert(1)</script>" d) &&
        !(occursIn "&lt;script&gt;alert(1)&lt;/script&gt;" d)) =
      some true) := by
  refine ⟨?_, ?_, ?_⟩
  · intro post url p u doc hp hu hgen
    exact generate_shape hp hu hgen
  · intro s
    exact escapeList_no_special s.data
  · set_option maxRecDepth 8000 in decide

/-- C1 amended witness: the escaped-slot shape at a concrete record. -/
theorem user_content_escaping_witness :
    ∃ mi th av gal,
      htmlDoc "U" (htmlEscape "") (htmlEscape (stripTags "")) "" "#25A0E7"
          (htmlEscape "") "AV" "" =
        htmlDoc "U" (htmlEscape "") (htmlEscape (stripTags "")) mi th
          (htmlEscape "") av gal :=
  user_content_escaping.1
    ⟨some ⟨none, none, none, none⟩, some ⟨none, some "AV"⟩, none, none, none,
     none⟩ "U" ⟨none, none, none, none⟩ ⟨none, some "AV"⟩
    (htmlDoc "U" (htmlEscape "") (htmlEscape (stripTags "")) "" "#25A0E7"
      (htmlEscape "") "AV" "")
    rfl rfl rfl

/-- C2 counterexample: the renderer is not total — a record whose `user`
object lacks `avatar_url` makes `u['avatar_url']` raise (modelled `none`)
instead of degrading to a default. -/
theorem render_keyerror_on_missing_avatar :
    generate_embed_html
      ⟨some ⟨none, none, none, none⟩, some ⟨none, none⟩, none, none, none, none⟩
      "U" = none := rfl

/-- C2 (amended): rendering is pure and succeeds for every record whose
`post` and `user` objects and `user.avatar_url` are present and whose
`video`, `game` and both image lists are absent or empty; such a record
yields the template with an empty main image (hence no og:image or
twitter:image meta tag, those conditionals rendering to the empty string)
and the default accent color `#25A0E7`.  A record missing `avatar_url`,
however, fails instead of degrading. -/
theorem render_degrades_when_optional_absent :
    (∀ (post : PostRecord) (url : String) (p : PostInner) (u : PostUser)
        (av : String),
        post.post = some p → post.user = some u → u.avatar_url = some av →
        post.video = none → post.game = none →
        (post.cover_list = none ∨ post.cover_list = some []) →
        (post.image_list = none ∨ post.image_list = some []) →
        generate_embed_html post url =
          some (htmlDoc url (htmlEscape (p.subject.getD ""))
            (htmlEscape (stripTags (p.desc.getD ""))) "" "#25A0E7"
            (htmlEscape (u.nickname.getD "")) av "")) ∧
    og_image_tag "" = "" ∧
    twitter_image_tag "" = "" ∧
    ((generate_embed_html
        ⟨some ⟨none, none, none, none⟩, some ⟨none, some ""⟩, none, none, none,
         none⟩ "U").map
      (fun d => !(occursIn "og:image" d) && !(occursIn "twitter:image" d) &&
        occursIn "#25A0E7" d) = some true) := by
  refine ⟨?_, rfl, rfl, ?_⟩
  · intro post url p u av hp hu hav hv hg hc hi
    obtain ⟨pp, pu, pv, pg, pc, pi⟩ := post
    replace hp : pp = some p := hp
    replace hu : pu = some u := hu
    replace hv : pv = none := hv
    replace hg : pg = none := hg
    subst hp
    subst hu
    subst hv
    subst hg
    replace hc : pc = none ∨ pc = some [] := hc
    replace hi : pi = none ∨ pi = some [] := hi
    unfold generate_embed_html
    rcases hc with rfl | rfl <;> rcases hi with rfl | rfl <;>
      by_cases hcv : p.has_cover = some true <;>
        simp [hcv, hav, first_image_url, gallery_html_of, main_image_of,
          theme_color_of]
  · set_option maxRecDepth 8000 in decide

/-- C2 amended witness: the no-image default rendering at a concrete
record. -/
theorem render_degrades_when_optional_absent_witness :
    generate_embed_html
        ⟨some ⟨none, none, none, none⟩, some ⟨none, some "AV"⟩, none, none,
         none, none⟩ "U" =
      some (htmlDoc "U" (htmlEscape "") (htmlEscape (stripTags "")) ""
        "#25A0E7" (htmlEscape "") "AV" "") :=
  render_degrades_when_optional_absent.1
    ⟨some ⟨none, none, none, none⟩, some ⟨none, some "AV"⟩, none, none, none,
     none⟩ "U" ⟨none, none, none, none⟩ ⟨none, some "AV"⟩ "AV"
    rfl rfl rfl rfl rfl (Or.inl rfl) (Or.inl rfl)

/-- C8: the description slot of the rendered document is the HTML-escape
of the tag-stripped `post.desc`, in that order; on `a <b>bold</b>&c` the
`<b>` tag is removed and the ampersand escapes to `&amp;c`, never losing
the literal `&c`. -/
theorem desc_stripped_then_escaped :
    (∀ (post : PostRecord) (url : String) (p : PostInner) (u : PostUser)
        (doc : String),
        post.post = some p → post.user = some u →
        generate_embed_html post url = some doc →
        ∃ subj mi th nick av gal,
          doc = htmlDoc url subj (htmlEscape (stripTags (p.desc.getD "")))
              mi th nick av gal) ∧
    htmlEscape (stripTags "a <b>bold</b>&c") = "a bold&amp;c" ∧
    ((generate_embed_html
        ⟨some ⟨none, some "a <b>bold</b>&c", none, none⟩, some ⟨none, some ""⟩,
         none, none, none, none⟩ "U").map
      (fun d => occursIn "a bold&amp;c" d && !(occursIn "<b>" d)) =
      some true) := by
  refine ⟨?_, by decide, ?_⟩
  · intro post url p u doc hp hu hgen
    obtain ⟨mi, th, av, gal, hd⟩ := generate_shape hp hu hgen
    exact ⟨_, mi, th, _, av, gal, hd⟩
  · set_option maxRecDepth 8000 in decide

/-- C8 witness: the slot shape at a concrete record carrying the spec's
example description. -/
theorem desc_stripped_then_escaped_witness :
    ∃ subj mi th nick av gal,
      htmlDoc "U" (htmlEscape "") (htmlEscape (stripTags "a <b>bold</b>&c"))
          "" "#25A0E7" (htmlEscape "") "AV" "" =
        htmlDoc "U" subj (htmlEscape (stripTags "a <b>bold</b>&c")) mi th
          nick av gal :=
  desc_stripped_then_escaped.1
    ⟨some ⟨none, some "a <b>bold</b>&c", none, none⟩, some ⟨none, some "AV"⟩,
     none, none, none, none⟩ "U" ⟨none, some "a <b>bold</b>&c", none, none⟩
    ⟨none, some "AV"⟩
    (htmlDoc "U" (htmlEscape "") (htmlEscape (stripTags "a <b>bold</b>&c"))
      "" "#25A0E7" (htmlEscape "") "AV" "")
    rfl rfl rfl

/-- C9: the image gallery fragment is built from at most the first 4
images of the selected image list — the fragment depends only on the
first 4 entries, it renders at most 4 items, and a record carrying 10
images gets the 4th URL into the document but not the 5th. -/
theorem gallery_bounded_by_four :
    (∀ (l : List ImageItem), gallery_imgs l = gallery_imgs (l.take 4)) ∧
    (∀ (l : List ImageItem) (ts : List String), imgTags (l.take 4) = some ts →
        ts.length ≤ 4) ∧
    ((generate_embed_html
        ⟨some ⟨none, none, some true, none⟩, some ⟨none, some ""⟩, none, none,
         some [⟨some "picURL0"⟩, ⟨some "picURL1"⟩, ⟨some "picURL2"⟩,
           ⟨some "picURL3"⟩, ⟨some "picURL4"⟩, ⟨some "picURL5"⟩,
           ⟨some "picURL6"⟩, ⟨some "picURL7"⟩, ⟨some "picURL8"⟩,
           ⟨some "picURL9"⟩], none⟩ "U").map
      (fun d => occursIn "picURL3" d && !(occursIn "picURL4" d)) =
      some true) := by
  refine ⟨?_, ?_, ?_⟩
  · intro l
    simp [gallery_imgs, List.take_take]
  · intro l ts h
    have := imgTags_length (l.take 4) ts h
    simp only [List.length_take] at this
    omega
  · set_option maxRecDepth 8000 in decide

/-- C9 witness: a 10-image list yields exactly 4 rendered items. -/
theorem gallery_bounded_by_four_witness :
    (["<img src=\"picURL0\">", "<img src=\"picURL1\">", "<img src=\"picURL2\">",
      "<img src=\"picURL3\">"] : List String).length ≤ 4 :=
  gallery_bounded_by_four.2.1
    [⟨some "picURL0"⟩, ⟨some "picURL1"⟩, ⟨some "picURL2"⟩, ⟨some "picURL3"⟩,
     ⟨some "picURL4"⟩, ⟨some "picURL5"⟩, ⟨some "picURL6"⟩, ⟨some "picURL7"⟩,
     ⟨some "picURL8"⟩, ⟨some "picURL9"⟩]
    ["<img src=\"picURL0\">", "<img src=\"picURL1\">", "<img src=\"picURL2\">",
     "<img src=\"picURL3\">"] (by decide)

end FastPy
